import Mathlib

/-!
Verification of the praetor-api authentication core against its specification.

The Python source is shallowly embedded: the SQLAlchemy-backed repositories become
pure functions over an explicit list-of-records store, service methods become
state-passing functions returning `Except`, and raised `UnauthorizedException` /
`ForbiddenException` become error values.  Timestamps are modelled as `Int`
(seconds); third-party cryptographic artifacts (bcrypt, HMAC signatures) are
modelled by their library contracts, as noted at each definition.
-/

namespace Praetor

/-- Refresh-token record, mirroring `apps/auth/models/token.py` (`auth_tokens` table):
primary-key id, unique token value, owning user id, expiry timestamp, active flag. -/
structure TokenRec where
  id : Nat
  token : String
  user_id : Nat
  expires_at : Int
  is_active : Bool
deriving Repr, DecidableEq

/-- The refresh-token table, as the list of its rows. -/
abbrev TokenStore := List TokenRec

/-- Permission entity (`apps/auth/models/permission.py`): identified by its name. -/
structure Permission where
  name : String
deriving Repr, DecidableEq

/-- Role entity (`apps/auth/models/role.py`) with its linked permissions. -/
structure Role where
  name : String
  permissions : List Permission
deriving Repr, DecidableEq

/-- User entity (`apps/auth/models/user.py`) with its role assignments. -/
structure User where
  id : Nat
  email : String
  hashed_password : String
  is_active : Bool
  is_superuser : Bool
  roles : List Role
deriving Repr, DecidableEq

/-- Error values for the exceptions raised by the service layer
(`core/exceptions.py`): `UnauthorizedException` and `ForbiddenException`,
each carrying its detail string. -/
inductive SvcError where
  | unauthorized (detail : String)
  | forbidden (detail : String)
deriving Repr, DecidableEq

/-- Tests whether a service outcome is an `UnauthorizedException` (HTTP 401) —
the single surface under which the service reports every invalid refresh token,
which the specification names `AlreadyRotatedOrRevoked` for rotation reuse. -/
def errIsUnauthorized {α : Type} : Except SvcError α → Bool
  | .error (.unauthorized _) => true
  | _ => false

/-! Token repository (`apps/auth/repositories/token.py`). -/

/-- TokenRepository.get_by_token: `SELECT ... WHERE token = t AND is_active`,
`scalar_one_or_none`.  The token column is UNIQUE, so at most one row matches and
`find?` (first match) coincides with the query result. -/
def get_by_token (s : TokenStore) (t : String) : Option TokenRec :=
  s.find? (fun r => r.token == t && r.is_active)

/-- TokenRepository.create_token: inserts a fresh active row.  The database
assigns the primary key; the model takes the fresh id as a parameter. -/
def create_token (s : TokenStore) (nid : Nat) (t : String) (uid : Nat)
    (exp : Int) : TokenStore :=
  s ++ [{ id := nid, token := t, user_id := uid, expires_at := exp, is_active := true }]

/-- Write half of TokenRepository.revoke_token: sets `is_active = False` on the
row previously read, with no re-check of its state at write time (the ORM flushes
the mutated object).  Because the token column is unique, writing the row with
value `t` is the same as writing the object that was read. -/
def mark_inactive (s : TokenStore) (t : String) : TokenStore :=
  s.map (fun r => if r.token == t then { r with is_active := false } else r)

/-- TokenRepository.revoke_token: a read (`get_by_token`) followed by an
unguarded write of the row it returned; returns whether the read found a row. -/
def revoke_token (s : TokenStore) (t : String) : Bool × TokenStore :=
  match get_by_token s t with
  | some _ => (true, mark_inactive s t)
  | none => (false, s)

/-- Deletion of one row by primary key, as `session.delete` on a loaded object. -/
def delete_rec (s : TokenStore) (rid : Nat) : TokenStore :=
  s.filter (fun r => r.id != rid)

/-- TokenRepository.cleanup_expired_tokens: selects the rows with
`expires_at < now`, deletes each one in turn, and counts the deletions. -/
def cleanup_expired_tokens (s : TokenStore) (now : Int) : Nat × TokenStore :=
  let expired := s.filter (fun r => decide (r.expires_at < now))
  expired.foldl (fun acc r => (acc.1 + 1, delete_rec acc.2 r.id)) (0, s)

/-! User repository (`apps/auth/repositories/user.py` and `BaseRepository.get`). -/

/-- BaseRepository.get: fetch a user by primary key. -/
def get_user (us : List User) (uid : Nat) : Option User :=
  us.find? (fun u => u.id == uid)

/-- UserRepository.get_by_email: the email column is unique. -/
def get_by_email (us : List User) (e : String) : Option User :=
  us.find? (fun u => u.email == e)

/-! Configuration (`config/settings.py`): signing key, algorithm and TTLs, loaded
once at startup and immutable thereafter.  TTLs are configuration quantities and
hence nonnegative. -/

/-- Relevant fields of the application settings. -/
structure Settings where
  SECRET_KEY : String
  ALGORITHM : String
  ACCESS_TOKEN_EXPIRE_MINUTES : Nat
  REFRESH_TOKEN_EXPIRE_DAYS : Nat
deriving Repr, DecidableEq

/-! Python decimal string conversion.  `str()` on a nonnegative int yields its
decimal digit string; `int()` parses it back.  Both are builtins, modelled here
directly. -/

/-- Decimal digit characters of `n`, most significant first; empty for `n = 0`.
The fuel argument only bounds the recursion and is immaterial once `n ≤ fuel`. -/
def pyStrCore : Nat → Nat → List Char
  | 0, _ => []
  | fuel + 1, n =>
    if n = 0 then [] else pyStrCore fuel (n / 10) ++ [Nat.digitChar (n % 10)]

/-- Models Python str() on a nonnegative int: its decimal representation. -/
def pyStr (n : Nat) : String :=
  if n = 0 then "0" else ⟨pyStrCore (n + 1) n⟩

/-- Models Python int() on a string, restricted to unsigned digit strings (the
only shape `str()` produces; the builtin additionally tolerates signs and
whitespace, which cannot occur here).  A non-numeric string raises ValueError,
modelled as `none`. -/
def pyInt (s : String) : Option Nat :=
  if !s.data.isEmpty && s.data.all Char.isDigit then
    some (s.data.foldl (fun a c => 10 * a + (c.toNat - 48)) 0)
  else none

/-! JWT access credentials (`config/security.py`).  The compact encoding and the
HMAC signature are produced by the third-party jose library; a signed token is
modelled by its library contract as the payload bound to the signing key and
algorithm, so that decoding with the same key and algorithm — and only then —
recovers exactly the encoded claims. -/

/-- Claims carried by an access token: the `sub` claim set by the service and
the `exp` claim stamped at issuance. -/
structure JwtPayload where
  sub : Option String
  exp : Int
deriving Repr, DecidableEq

/-- A jose-encoded token: the payload as bound by the signature to the key and
algorithm used at encoding time. -/
structure Jwt where
  payload : JwtPayload
  key : String
  alg : String
deriving Repr, DecidableEq

/-- Models jose `jwt.decode(tok, key, algorithms)` on an encoded token: fails
(raises JWTError) unless the signature verifies, i.e. unless the key matches and
the algorithm is among those allowed; then validates the `exp` claim against the
clock (expired when `exp < now`, zero leeway).  On success returns the claims. -/
def jose_jwt_decode (tok : Jwt) (key : String) (algs : List String)
    (now : Int) : Option JwtPayload :=
  if tok.key == key && algs.contains tok.alg && !decide (tok.payload.exp < now) then
    some tok.payload
  else none

/-- create_access_token (`config/security.py`): copies the data (here the `sub`
claim), stamps `exp := now + ACCESS_TOKEN_EXPIRE_MINUTES`, and jose-encodes with
the configured key and algorithm. -/
def create_access_token (cfg : Settings) (sub : String) (now : Int) : Jwt :=
  { payload := { sub := some sub, exp := now + 60 * cfg.ACCESS_TOKEN_EXPIRE_MINUTES }
    key := cfg.SECRET_KEY
    alg := cfg.ALGORITHM }

/-- decode_token (`config/security.py`): jose decode under the configured key
and algorithm; any JWTError becomes an UnauthorizedException. -/
def decode_token (cfg : Settings) (tok : Jwt) (now : Int) :
    Except SvcError JwtPayload :=
  match jose_jwt_decode tok cfg.SECRET_KEY [cfg.ALGORITHM] now with
  | some payload => .ok payload
  | none => .error (.unauthorized "Could not validate credentials")

/-- get_opaque_refresh_token_expiry (`config/security.py`):
`now + REFRESH_TOKEN_EXPIRE_DAYS` (days in seconds). -/
def get_opaque_refresh_token_expiry (cfg : Settings) (now : Int) : Int :=
  now + 86400 * cfg.REFRESH_TOKEN_EXPIRE_DAYS

/-- Token pair returned by the authentication service methods.  The access
token is carried in its modelled (encoded) form. -/
structure TokenPair where
  access_token : Jwt
  refresh_token : String
  token_type : String
  auth_type : String
deriving Repr, DecidableEq

/-! Authentication service (`apps/auth/services/user.py`).  Each method takes
the current store and returns the outcome together with the store after the
call; a raised exception leaves the store as it was, since every raise in these
methods happens before any write.  Freshly generated values (the opaque token
from `secrets.token_urlsafe` and the database-assigned primary key) enter as
parameters.  `verify_password` is the third-party bcrypt check and enters as a
function parameter. -/

/-- UserService.authenticate_user: look up by email, check the password against
the stored digest, reject inactive users; then issue a JWT access token and
persist a fresh opaque refresh record. -/
def authenticate_user (cfg : Settings) (verify : String → String → Bool)
    (users : List User) (s : TokenStore) (now : Int) (email password : String)
    (fresh_value : String) (fresh_id : Nat) :
    Except SvcError TokenPair × TokenStore :=
  match get_by_email users email with
  | none => (.error (.unauthorized "Incorrect email or password"), s)
  | some user =>
    if !verify password user.hashed_password then
      (.error (.unauthorized "Incorrect email or password"), s)
    else if !user.is_active then
      (.error (.unauthorized "Inactive user"), s)
    else
      let access := create_access_token cfg (pyStr user.id) now
      (.ok { access_token := access, refresh_token := fresh_value,
             token_type := "bearer", auth_type := "hybrid" },
       create_token s fresh_id fresh_value user.id
         (get_opaque_refresh_token_expiry cfg now))

/-- UserService.refresh_access_token: validate the presented opaque refresh
token (present and active, unexpired, owner present and active), revoke it via
the read-then-write `revoke_token`, then issue a new JWT access token and insert
the replacement refresh record. -/
def refresh_access_token (cfg : Settings) (users : List User) (s : TokenStore)
    (now : Int) (refresh_token : String) (fresh_value : String) (fresh_id : Nat) :
    Except SvcError TokenPair × TokenStore :=
  match get_by_token s refresh_token with
  | none => (.error (.unauthorized "Refresh token not found"), s)
  | some db_token =>
    if !db_token.is_active then
      (.error (.unauthorized "Refresh token has been revoked"), s)
    else if decide (db_token.expires_at < now) then
      (.error (.unauthorized "Refresh token has expired"), s)
    else
      match get_user users db_token.user_id with
      | none => (.error (.unauthorized "User not found or inactive"), s)
      | some user =>
        if !user.is_active then
          (.error (.unauthorized "User not found or inactive"), s)
        else
          let s1 := (revoke_token s refresh_token).2
          let new_access := create_access_token cfg (pyStr user.id) now
          let s2 := create_token s1 fresh_id fresh_value user.id
            (get_opaque_refresh_token_expiry cfg now)
          (.ok { access_token := new_access, refresh_token := fresh_value,
                 token_type := "bearer", auth_type := "hybrid" }, s2)

/-- UserService.logout: revoke the presented refresh token; if `revoke_token`
reports that no active row was found, raise UnauthorizedException. -/
def logout (s : TokenStore) (refresh_token : String) :
    Except SvcError String × TokenStore :=
  match revoke_token s refresh_token with
  | (true, s1) => (.ok "Successfully logged out", s1)
  | (false, s1) => (.error (.unauthorized "Invalid refresh token"), s1)

/-! Authorization resolver (`core/dependencies.py`). -/

/-- Inner checker produced by require_permission: superusers pass
unconditionally; otherwise the permission names of all the user's roles are
collected (a set in the source; only membership is ever consulted) and the
required permission must be among them.  The detail string of the raised
ForbiddenException quotes the permission name. -/
def permission_checker (required_permission : String) (current_user : User) :
    Except SvcError User :=
  if current_user.is_superuser then .ok current_user
  else
    let user_permissions :=
      current_user.roles.flatMap (fun role => role.permissions.map (fun p => p.name))
    if !user_permissions.contains required_permission then
      .error (.forbidden ("Action requires permission: " ++ required_permission))
    else .ok current_user

/-! Structural JWT pre-check (`config/security.py`, is_jwt_token).  The function
splits the raw string on dots, requires exactly three parts, and then attempts
`jwt.decode(..., verify_signature disabled)`, returning False on any exception.
The unverified decode is third-party (jose); even with signature verification
disabled it (a) base64url-decodes all three segments (Python pads to a multiple
of 4 and rejects a segment whose data length is 1 more than a multiple of 4, or
containing a character outside the base64url alphabet), (b) JSON-parses header
and payload, which must be JSON objects, (c) reads the alg entry of the
unverified header — a KeyError when the header lacks alg, caught by the bare
except of is_jwt_token — and (d) validates the registered claims (exp, nbf,
iat, aud, iss, sub, jti, at_hash) when the payload carries them.  The model
below reproduces the splitting and the base64url decoding exactly, and
recognizes JSON objects restricted to flat objects whose keys and values are
escape-free strings; it requires the alg key in the header per (c), and it
accepts only payloads free of registered claim names, so the claim validation
of (d) passes vacuously on every payload the model accepts.  The restriction
means the model may reject where the library accepts (nested or numeric JSON
values, payloads carrying registered claims); wherever the model accepts, the
library accepts. -/

/-- Value of a character in the base64url alphabet, `none` outside it. -/
def b64Val (c : Char) : Option Nat :=
  let n := c.toNat
  if 65 ≤ n && n ≤ 90 then some (n - 65)
  else if 97 ≤ n && n ≤ 122 then some (n - 97 + 26)
  else if 48 ≤ n && n ≤ 57 then some (n - 48 + 52)
  else if n == 45 then some 62
  else if n == 95 then some 63
  else none

/-- Reassemble 6-bit values into bytes; a trailing group of a single value is
the 1-mod-4 length that Python's base64 decoder rejects. -/
def b64DecodeVals : List Nat → Option (List Nat)
  | [] => some []
  | [_] => none
  | [a, b] => some [a * 4 + b / 16]
  | [a, b, c] => some [a * 4 + b / 16, b % 16 * 16 + c / 4]
  | a :: b :: c :: d :: rest =>
    match b64DecodeVals rest with
    | some bs => some ((a * 4 + b / 16) :: (b % 16 * 16 + c / 4) :: (c % 4 * 64 + d) :: bs)
    | none => none

/-- Base64url decoding of one segment to its bytes, as performed by the jose
utils on each JWT segment. -/
def base64url_decode (seg : List Char) : Option (List Nat) :=
  match seg.mapM b64Val with
  | some vals => b64DecodeVals vals
  | none => none

/-- Consume the body of a JSON string up to its closing quote, returning the
content bytes and the remainder; escape sequences are outside the recognized
fragment. -/
def jsonStringBody : List Nat → Option (List Nat × List Nat)
  | [] => none
  | b :: rest =>
    if b == 34 then some ([], rest)
    else if b == 92 then none
    else
      match jsonStringBody rest with
      | some (content, rem) => some (b :: content, rem)
      | none => none

/-- Consume one JSON string literal (opening quote, body, closing quote),
returning its content bytes and the remainder. -/
def jsonString : List Nat → Option (List Nat × List Nat)
  | 34 :: rest => jsonStringBody rest
  | _ => none

/-- Consume one `"key":"value"` member, returning the key bytes. -/
def jsonPair (bs : List Nat) : Option (List Nat × List Nat) :=
  match jsonString bs with
  | some (key, 58 :: rest) =>
    match jsonString rest with
    | some (_, rem) => some (key, rem)
    | none => none
  | _ => none

/-- Consume a comma-separated sequence of members, returning their keys;
fueled by input length. -/
def jsonMembersCore : Nat → List Nat → Option (List (List Nat) × List Nat)
  | 0, _ => none
  | fuel + 1, bs =>
    match jsonPair bs with
    | some (key, 44 :: rest) =>
      match jsonMembersCore fuel rest with
      | some (keys, rem) => some (key :: keys, rem)
      | none => none
    | some (key, rest) => some ([key], rest)
    | none => none

/-- Keys of an input that is one flat JSON object with string keys and string
values (byte 123 opens and byte 125 closes the object); `none` when the input
is not of that recognized shape. -/
def json_object_keys (bs : List Nat) : Option (List (List Nat)) :=
  match bs with
  | 123 :: rest =>
    match rest with
    | [125] => some []
    | _ =>
      match jsonMembersCore (rest.length + 1) rest with
      | some (keys, [125]) => some keys
      | _ => none
  | _ => none

/-- Registered claim names validated by the jose jwt.decode when present in the
payload, as byte lists: exp, nbf, iat, aud, iss, sub, jti, at_hash. -/
def registeredClaimKeys : List (List Nat) :=
  [[101, 120, 112], [110, 98, 102], [105, 97, 116], [97, 117, 100],
   [105, 115, 115], [115, 117, 98], [106, 116, 105],
   [97, 116, 95, 104, 97, 115, 104]]

/-- Models the jose unverified decode attempted by is_jwt_token on the three
segments: each segment must base64url-decode, header and payload bytes must be
JSON objects (restricted as described above), the header must carry the alg key
(bytes 97 108 103) read by jwt.decode, and the payload must be free of
registered claim names so that the claim validation passes vacuously. -/
def jose_unverified_decode_ok (header payload sig : List Char) : Bool :=
  match base64url_decode header, base64url_decode payload, base64url_decode sig with
  | some hb, some pb, some _ =>
    match json_object_keys hb, json_object_keys pb with
    | some hkeys, some pkeys =>
      hkeys.contains [97, 108, 103] &&
        pkeys.all (fun k => !registeredClaimKeys.contains k)
    | _, _ => false
  | _, _, _ => false

/-- Python `raw.split` on the dot character: list of segments, at least one,
with empty segments preserved. -/
def splitOnDot : List Char → List (List Char)
  | [] => [[]]
  | c :: rest =>
    let r := splitOnDot rest
    if c == '.' then [] :: r
    else
      match r with
      | [] => [[c]]
      | h :: t => (c :: h) :: t

/-- is_jwt_token (`config/security.py`): split on dots, require exactly three
parts, then attempt the unverified jose decode; any exception yields False. -/
def is_jwt_token (token : String) : Bool :=
  match splitOnDot token.data with
  | [header, payload, sig] => jose_unverified_decode_ok header payload sig
  | _ => false

/-! TokenBearer (`apps/auth/dependencies.py`), applied to a presented access
token in its modelled encoded form.  On a genuinely jose-encoded token the
string-level pre-check `is_jwt_token` resolves by the library contract: the
compact encoding always has three base64url segments whose header and payload
are JSON objects, and the unverified decode still validates the `exp` claim, so
the pre-check succeeds precisely when the token is not expired. -/

/-- Value of the is_jwt_token pre-check on the compact serialization of an
encoded token, per the jose contract just described. -/
def is_jwt_token_on_encoded (tok : Jwt) (now : Int) : Bool :=
  !decide (tok.payload.exp < now)

/-- TokenBearer validation of a presented (already extracted) access token:
structural pre-check, decode_token, then the `sub` claim is required and parsed
with int(); any failure surfaces as an HTTP 401. -/
def token_bearer_validate (cfg : Settings) (tok : Jwt) (now : Int) :
    Except SvcError Nat :=
  if !is_jwt_token_on_encoded tok now then
    .error (.unauthorized "Invalid token format. Expected JWT token.")
  else
    match decode_token cfg tok now with
    | .error e => .error e
    | .ok payload =>
      match payload.sub with
      | none => .error (.unauthorized "Invalid JWT token payload")
      | some sub =>
        match pyInt sub with
        | some uid => .ok uid
        | none => .error (.unauthorized "Invalid or expired JWT token")

/-! Concurrency model for rotation.  A rotate call (refresh_access_token)
performs its database operations in this order: the validation read
(get_by_token) and checks, the read inside revoke_token (get_by_token again),
the unguarded deactivation write, and the insert of the replacement.  Every
raise happens during the reads; once the reads succeed the call commits its
writes unconditionally, because revoke_token bases its decision on the row it
read, not on the row state at write time.  Under two concurrent sessions each
operation is individually atomic but the interleaving is arbitrary.  The model
splits a call into its read phase and its write phase, each a function of the
store at the moment it executes. -/

/-- Read phase of refresh_access_token: the validation read and checks together
with the read performed inside revoke_token.  In an uninterrupted (sequential)
call both reads see the same store, so the phase returns the record and its
owner exactly when the full function would proceed to the writes. -/
def rotate_read_phase (users : List User) (s : TokenStore) (now : Int)
    (refresh_token : String) : Except SvcError (TokenRec × User) :=
  match get_by_token s refresh_token with
  | none => .error (.unauthorized "Refresh token not found")
  | some db_token =>
    if !db_token.is_active then
      .error (.unauthorized "Refresh token has been revoked")
    else if decide (db_token.expires_at < now) then
      .error (.unauthorized "Refresh token has expired")
    else
      match get_user users db_token.user_id with
      | none => .error (.unauthorized "User not found or inactive")
      | some user =>
        if !user.is_active then
          .error (.unauthorized "User not found or inactive")
        else .ok (db_token, user)

/-- Write phase of refresh_access_token, applied to the store at commit time:
the unguarded deactivation write of revoke_token followed by the insert of the
replacement record, and the new access token for the owner read earlier. -/
def rotate_write_phase (cfg : Settings) (s : TokenStore) (user : User)
    (now : Int) (refresh_token fresh_value : String) (fresh_id : Nat) :
    TokenPair × TokenStore :=
  let s1 := mark_inactive s refresh_token
  let s2 := create_token s1 fresh_id fresh_value user.id
    (get_opaque_refresh_token_expiry cfg now)
  ({ access_token := create_access_token cfg (pyStr user.id) now,
     refresh_token := fresh_value, token_type := "bearer", auth_type := "hybrid" },
   s2)

/-- Interleaved execution of two rotate calls A and B on the same presented
token, under the schedule in which both read phases run against the initial
store before either write phase commits (read committed isolation admits it:
neither session has written when the reads run).  A's writes commit first, then
B's.  A caller whose read phase fails raises and writes nothing; a caller whose
read phase succeeds commits its writes unconditionally, as in the source. -/
def rotate_race (cfg : Settings) (users : List User) (s0 : TokenStore)
    (now : Int) (refresh_token freshA freshB : String) (idA idB : Nat) :
    Except SvcError TokenPair × Except SvcError TokenPair × TokenStore :=
  match rotate_read_phase users s0 now refresh_token,
        rotate_read_phase users s0 now refresh_token with
  | .ok (_, uA), .ok (_, uB) =>
    let (pA, sA) := rotate_write_phase cfg s0 uA now refresh_token freshA idA
    let (pB, sB) := rotate_write_phase cfg sA uB now refresh_token freshB idB
    (.ok pA, .ok pB, sB)
  | .ok (_, uA), .error eB =>
    let (pA, sA) := rotate_write_phase cfg s0 uA now refresh_token freshA idA
    (.ok pA, .error eB, sA)
  | .error eA, .ok (_, uB) =>
    let (pB, sB) := rotate_write_phase cfg s0 uB now refresh_token freshB idB
    (.error eA, .ok pB, sB)
  | .error eA, .error eB => (.error eA, .error eB, s0)

/-- Spec-modelled conditional revoke (`revoke` as §4.4/§5 of the specification
demand it): a compare-and-set write that deactivates the row only if it is
still active at the moment of the write, reporting whether a change occurred.
Stated here only to contrast with the source's read-then-write revoke_token. -/
def revoke_conditional (s : TokenStore) (t : String) : Bool × TokenStore :=
  match s.find? (fun r => r.token == t && r.is_active) with
  | some _ => (true, mark_inactive s t)
  | none => (false, s)

/-- Write phase of rotation as the specification prescribes it: the revoke is
the single atomic conditional step `revoke_conditional`, evaluated against the
store at commit time; when it affects no row the caller lost the race and fails
with the reuse error instead of committing. -/
def rotate_write_phase_cas (cfg : Settings) (s : TokenStore) (user : User)
    (now : Int) (refresh_token fresh_value : String) (fresh_id : Nat) :
    Except SvcError TokenPair × TokenStore :=
  match revoke_conditional s refresh_token with
  | (true, s1) =>
    (.ok { access_token := create_access_token cfg (pyStr user.id) now,
           refresh_token := fresh_value, token_type := "bearer",
           auth_type := "hybrid" },
     create_token s1 fresh_id fresh_value user.id
       (get_opaque_refresh_token_expiry cfg now))
  | (false, s1) => (.error (.unauthorized "Refresh token not found"), s1)

/-- The same racy schedule as `rotate_race`, but with the spec-modelled
conditional revoke deciding at write time. -/
def rotate_race_cas (cfg : Settings) (users : List User) (s0 : TokenStore)
    (now : Int) (refresh_token freshA freshB : String) (idA idB : Nat) :
    Except SvcError TokenPair × Except SvcError TokenPair × TokenStore :=
  match rotate_read_phase users s0 now refresh_token,
        rotate_read_phase users s0 now refresh_token with
  | .ok (_, uA), .ok (_, uB) =>
    let (rA, sA) := rotate_write_phase_cas cfg s0 uA now refresh_token freshA idA
    let (rB, sB) := rotate_write_phase_cas cfg sA uB now refresh_token freshB idB
    (rA, rB, sB)
  | .ok (_, uA), .error eB =>
    let (rA, sA) := rotate_write_phase_cas cfg s0 uA now refresh_token freshA idA
    (rA, .error eB, sA)
  | .error eA, .ok (_, uB) =>
    let (rB, sB) := rotate_write_phase_cas cfg s0 uB now refresh_token freshB idB
    (.error eA, rB, sB)
  | .error eA, .error eB => (.error eA, .error eB, s0)

/-! Concrete fixtures used by the closed demonstrations and the witnesses. -/

/-- Configuration fixture with the default TTLs of `config/settings.py`. -/
def cfgD : Settings :=
  { SECRET_KEY := "k", ALGORITHM := "HS256",
    ACCESS_TOKEN_EXPIRE_MINUTES := 30, REFRESH_TOKEN_EXPIRE_DAYS := 7 }

/-- User fixture: an active, non-superuser principal with id 1. -/
def userD : User :=
  { id := 1, email := "e", hashed_password := "h",
    is_active := true, is_superuser := false, roles := [] }

/-- Token fixture: an active refresh record for user 1, expiring at time 100. -/
def tokD : TokenRec :=
  { id := 1, token := "t0", user_id := 1, expires_at := 100, is_active := true }

/-! Helper lemmas. -/

/-- Decimal digit characters are digits. -/
theorem digitChar_isDigit : ∀ d < 10, (Nat.digitChar d).isDigit = true := by decide

/-- Parsing a decimal digit character recovers its value. -/
theorem digitChar_sub48 : ∀ d < 10, (Nat.digitChar d).toNat - 48 = d := by decide

/-- The digit string of zero is empty at every fuel. -/
theorem pyStrCore_zero : ∀ fuel, pyStrCore fuel 0 = [] := by
  intro fuel
  cases fuel <;> simp [pyStrCore]

/-- The digit string of a positive number is nonempty. -/
theorem pyStrCore_ne_nil (fuel n : Nat) (hle : n ≤ fuel) (hn : n ≠ 0) :
    pyStrCore fuel n ≠ [] := by
  cases fuel with
  | zero => omega
  | succ f => simp [pyStrCore, hn]

/-- Every character produced by `pyStrCore` is a digit. -/
theorem pyStrCore_all_digit : ∀ fuel n, (pyStrCore fuel n).all Char.isDigit = true := by
  intro fuel
  induction fuel with
  | zero => intro n; rfl
  | succ f ih =>
    intro n
    by_cases hn : n = 0
    · simp [pyStrCore, hn]
    · simp only [pyStrCore, hn, if_false, List.all_append, List.all_cons, List.all_nil]
      rw [ih (n / 10), digitChar_isDigit _ (Nat.mod_lt _ (by norm_num))]
      rfl

/-- Folding the decimal parse step over the digit string of a positive `n`
starting from accumulator `a` yields `a` shifted past the digits, plus `n`. -/
theorem pyStrCore_foldl (fuel : Nat) : ∀ n a, n ≤ fuel → n ≠ 0 →
    ∃ k, (pyStrCore fuel n).foldl (fun acc c => 10 * acc + (c.toNat - 48)) a =
      a * 10 ^ k + n := by
  induction fuel with
  | zero => intro n a h hn; omega
  | succ f ih =>
    intro n a h hn
    have hstep : pyStrCore (f + 1) n =
        pyStrCore f (n / 10) ++ [Nat.digitChar (n % 10)] := by
      simp [pyStrCore, hn]
    have hd : (Nat.digitChar (n % 10)).toNat - 48 = n % 10 :=
      digitChar_sub48 _ (Nat.mod_lt _ (by norm_num))
    rw [hstep, List.foldl_append]
    simp only [List.foldl_cons, List.foldl_nil]
    by_cases h10 : n / 10 = 0
    · refine ⟨1, ?_⟩
      rw [h10, pyStrCore_zero]
      simp only [List.foldl_nil]
      rw [hd]
      have hlt : n % 10 = n := by omega
      rw [hlt, pow_one]
      ring
    · obtain ⟨k, hk⟩ := ih (n / 10) a (by omega) h10
      refine ⟨k + 1, ?_⟩
      rw [hk, hd, pow_succ, ← mul_assoc]
      omega

/-- Python int() inverts Python str() on every nonnegative integer. -/
theorem pyInt_pyStr (n : Nat) : pyInt (pyStr n) = some n := by
  by_cases hn : n = 0
  · subst hn; decide
  · obtain ⟨k, hk⟩ := pyStrCore_foldl (n + 1) n 0 (by omega) hn
    have hne := pyStrCore_ne_nil (n + 1) n (by omega) hn
    have hall := pyStrCore_all_digit (n + 1) n
    have hdata : (pyStr n).data = pyStrCore (n + 1) n := by
      simp [pyStr, hn]
    have hemp : (pyStrCore (n + 1) n).isEmpty = false := by
      cases hc : pyStrCore (n + 1) n with
      | nil => exact absurd hc hne
      | cons a t => rfl
    rw [pyInt, hdata, hemp, hall]
    simp only [Bool.not_false, Bool.and_true, if_true]
    rw [hk]
    simp

/-- Deactivating the row with value `t` leaves no active row with value `t`:
the active-filtered lookup then misses. -/
theorem get_by_token_mark_inactive (s : TokenStore) (t : String) :
    get_by_token (mark_inactive s t) t = none := by
  rw [get_by_token, List.find?_eq_none]
  intro x hx
  rw [mark_inactive] at hx
  obtain ⟨y, hy, rfl⟩ := List.mem_map.mp hx
  by_cases ht : y.token == t <;> simp [ht]

/-- Inserting a row with a different token value does not affect the lookup. -/
theorem get_by_token_create_other (s : TokenStore) (nid : Nat)
    (v t : String) (uid : Nat) (exp : Int) (hne : v ≠ t) :
    get_by_token (create_token s nid v uid exp) t = get_by_token s t := by
  rw [get_by_token, create_token, List.find?_append]
  have h1 : (([{ id := nid, token := v, user_id := uid, expires_at := exp,
                 is_active := true }] : TokenStore).find?
      (fun r => r.token == t && r.is_active)) = none := by
    simp [hne]
  rw [h1]
  simp [get_by_token]

/-- The full rotation function is the sequential composition of its read phase
and its write phase: this ties the concurrency decomposition to the source
function it decomposes. -/
theorem refresh_access_token_phases (cfg : Settings) (users : List User)
    (s : TokenStore) (now : Int) (rt fresh : String) (fid : Nat) :
    refresh_access_token cfg users s now rt fresh fid =
      match rotate_read_phase users s now rt with
      | .error e => (.error e, s)
      | .ok (_, user) =>
        let (pair, s2) := rotate_write_phase cfg s user now rt fresh fid
        (.ok pair, s2) := by
  simp only [refresh_access_token, rotate_read_phase, rotate_write_phase, revoke_token]
  cases hfind : get_by_token s rt with
  | none => rfl
  | some db =>
    by_cases ha : db.is_active <;> by_cases he : decide (db.expires_at < now) <;>
      simp only [ha, he, Bool.not_true, Bool.not_false, if_true, if_false]
    all_goals try rfl
    cases hu : get_user users db.user_id with
    | none => rfl
    | some user =>
      by_cases hua : user.is_active <;>
        simp [hua]

/-! Claim theorems. -/

/-- C2, counterexample: the claim says lookup returns the stored record whenever
a record with that value exists irrespective of its active flag, but on a store
holding an inactive record with value t0 the lookup returns none even though the
record exists. -/
theorem lookup_misses_existing_inactive_record :
    ({ id := 1, token := "t0", user_id := 1, expires_at := 100,
       is_active := false } : TokenRec) ∈
      ([{ id := 1, token := "t0", user_id := 1, expires_at := 100,
          is_active := false }] : TokenStore) ∧
    ({ id := 1, token := "t0", user_id := 1, expires_at := 100,
       is_active := false } : TokenRec).token = "t0" ∧
    get_by_token
      [{ id := 1, token := "t0", user_id := 1, expires_at := 100,
         is_active := false }] "t0" = none := by
  refine ⟨List.mem_singleton.mpr rfl, rfl, by decide⟩

/-- C2, amended: lookup(v) returns a record exactly when an ACTIVE record with
value v exists — any record returned is a member of the store, carries value v
and is active; and whenever an active record with value v exists the lookup
returns one.  Existing but revoked (inactive) records are reported as absent. -/
theorem lookup_finds_exactly_active (s : TokenStore) (v : String) :
    (∀ r, get_by_token s v = some r → r ∈ s ∧ r.token = v ∧ r.is_active = true) ∧
    ((∃ r ∈ s, r.token = v ∧ r.is_active = true) → (get_by_token s v).isSome = true) := by
  constructor
  · intro r hr
    refine ⟨List.mem_of_find?_eq_some hr, ?_⟩
    have hp := List.find?_some hr
    simp only [Bool.and_eq_true, beq_iff_eq] at hp
    exact hp
  · rintro ⟨r, hr, htok, hact⟩
    rw [get_by_token, List.find?_isSome]
    exact ⟨r, hr, by simp [htok, hact]⟩

/-- C2, witness for the amended claim: on a store holding an active record with
value t0 the lookup reports a record. -/
theorem lookup_finds_exactly_active_witness :
    (get_by_token
      [{ id := 1, token := "t0", user_id := 1, expires_at := 100,
         is_active := true }] "t0").isSome = true :=
  (lookup_finds_exactly_active
      [{ id := 1, token := "t0", user_id := 1, expires_at := 100,
         is_active := true }] "t0").2
    ⟨{ id := 1, token := "t0", user_id := 1, expires_at := 100, is_active := true },
     List.mem_singleton.mpr rfl, rfl, rfl⟩

/-- C5: require_permission passes exactly when the principal is a superuser or
the permission name occurs among the permissions attached to some assigned
role; otherwise it fails with the Forbidden error.  In particular a superuser
passes for a permission attached to none of their roles. -/
theorem require_permission_iff (q : String) (u : User) :
    ((permission_checker q u).isOk = true ↔
      u.is_superuser = true ∨ ∃ role ∈ u.roles, ∃ p ∈ role.permissions, p.name = q) ∧
    (u.is_superuser = false →
      (¬ ∃ role ∈ u.roles, ∃ p ∈ role.permissions, p.name = q) →
      permission_checker q u =
        .error (.forbidden ("Action requires permission: " ++ q))) := by
  have hmem : (u.roles.flatMap (fun role => role.permissions.map
        (fun p => p.name))).contains q = true ↔
      ∃ role ∈ u.roles, ∃ p ∈ role.permissions, p.name = q := by
    rw [List.contains_iff_exists_mem_beq]
    constructor
    · rintro ⟨x, hx, hbeq⟩
      rw [List.mem_flatMap] at hx
      obtain ⟨role, hrole, hx⟩ := hx
      obtain ⟨p, hp, rfl⟩ := List.mem_map.mp hx
      exact ⟨role, hrole, p, hp, (beq_iff_eq.mp hbeq).symm⟩
    · rintro ⟨role, hrole, p, hp, hname⟩
      exact ⟨p.name, List.mem_flatMap.mpr ⟨role, hrole,
        List.mem_map.mpr ⟨p, hp, rfl⟩⟩, beq_iff_eq.mpr hname.symm⟩
  by_cases hsu : u.is_superuser = true
  · refine ⟨?_, ?_⟩
    · rw [permission_checker, if_pos hsu]
      exact ⟨fun _ => Or.inl hsu, fun _ => rfl⟩
    · intro hfalse
      rw [hsu] at hfalse
      cases hfalse
  · refine ⟨?_, ?_⟩
    · rw [permission_checker, if_neg hsu]
      cases hq : (u.roles.flatMap (fun role => role.permissions.map
          (fun p => p.name))).contains q with
      | true =>
        simp only [hq, Bool.not_true, Bool.false_eq_true, if_false]
        exact ⟨fun _ => Or.inr (hmem.mp hq), fun _ => rfl⟩
      | false =>
        simp only [hq, Bool.not_false, if_true]
        constructor
        · intro h
          exact Bool.noConfusion h
        · rintro (h | h)
          · exact absurd h hsu
          · have := hmem.mpr h
            rw [hq] at this
            exact Bool.noConfusion this
    · intro _ hnot
      rw [permission_checker, if_neg hsu]
      have hq : (u.roles.flatMap (fun role => role.permissions.map
          (fun p => p.name))).contains q = false := by
        cases hqq : (u.roles.flatMap (fun role => role.permissions.map
            (fun p => p.name))).contains q
        · rfl
        · exact absurd (hmem.mp hqq) hnot
      simp only [hq, Bool.not_false, if_true]

/-- C5, witness: a superuser with no roles passes for an arbitrary permission,
and a plain user with no roles is rejected with Forbidden. -/
theorem require_permission_iff_witness :
    (permission_checker "doc:delete"
      { id := 2, email := "s", hashed_password := "h", is_active := true,
        is_superuser := true, roles := [] }).isOk = true ∧
    permission_checker "doc:delete" userD =
      .error (.forbidden ("Action requires permission: " ++ "doc:delete")) :=
  ⟨(require_permission_iff "doc:delete"
      { id := 2, email := "s", hashed_password := "h", is_active := true,
        is_superuser := true, roles := [] }).1.mpr (Or.inl rfl),
   (require_permission_iff "doc:delete" userD).2 rfl (by simp [userD])⟩

/-- C7, counterexample: the claim says the pre-check returns true exactly on
strings with three dot-separated segments, but the string a.b.c has three
segments and is rejected, because after the segment count the code attempts an
unverified JWT decode and the segments do not base64-decode. -/
theorem is_jwt_token_not_purely_structural :
    is_jwt_token "a.b.c" = false ∧ (splitOnDot "a.b.c".data).length = 3 := by
  constructor <;> decide

/-- C7, amended: three dot-separated segments are necessary but not sufficient
for the pre-check — whenever is_jwt_token returns true the string has exactly
three dot-separated segments, while some three-segment strings are rejected by
the unverified decode the code additionally attempts. -/
theorem is_jwt_token_requires_three_segments (t : String)
    (h : is_jwt_token t = true) : (splitOnDot t.data).length = 3 := by
  rw [is_jwt_token] at h
  rcases hsp : splitOnDot t.data with _ | ⟨a, _ | ⟨b, _ | ⟨c, _ | ⟨d, l⟩⟩⟩⟩ <;>
    rw [hsp] at h <;> first | rfl | cases h

/-- C7, witness: a three-segment string whose header decodes to a JSON object
carrying alg (here the standard HS256 JWT header) and whose payload decodes to
a flat JSON object free of registered claims passes the pre-check, and has
three segments. -/
theorem is_jwt_token_requires_three_segments_witness :
    is_jwt_token "eyJhbGciOiJIUzI1NiIsInR5cCI6IkpXVCJ9.eyJhIjoiYiJ9.eyJhIjoiYiJ9" = true ∧
    (splitOnDot
      ("eyJhbGciOiJIUzI1NiIsInR5cCI6IkpXVCJ9.eyJhIjoiYiJ9.eyJhIjoiYiJ9" : String).data).length = 3 :=
  ⟨by decide,
   is_jwt_token_requires_three_segments
     "eyJhbGciOiJIUzI1NiIsInR5cCI6IkpXVCJ9.eyJhIjoiYiJ9.eyJhIjoiYiJ9" (by decide)⟩

/-- Counting component of the deletion fold used by the expiry sweep. -/
theorem cleanup_foldl_count (l : List TokenRec) :
    ∀ acc : Nat × TokenStore,
      (l.foldl (fun acc r => (acc.1 + 1, delete_rec acc.2 r.id)) acc).1 =
        acc.1 + l.length := by
  induction l with
  | nil => intro acc; simp
  | cons r t ih =>
    intro acc
    rw [List.foldl_cons, ih]
    simp
    omega

/-- Store component of the deletion fold: the count does not influence it. -/
theorem cleanup_foldl_store (l : List TokenRec) :
    ∀ acc : Nat × TokenStore,
      (l.foldl (fun acc r => (acc.1 + 1, delete_rec acc.2 r.id)) acc).2 =
        l.foldl (fun st r => delete_rec st r.id) acc.2 := by
  induction l with
  | nil => intro acc; rfl
  | cons r t ih =>
    intro acc
    rw [List.foldl_cons, List.foldl_cons, ih]

/-- Deleting each row of `l` in turn from `st` keeps exactly the rows of `st`
whose id differs from every id in `l`. -/
theorem foldl_delete_eq_filter (l : List TokenRec) :
    ∀ st : TokenStore, l.foldl (fun st r => delete_rec st r.id) st =
      st.filter (fun x => l.all (fun r => x.id != r.id)) := by
  induction l with
  | nil => intro st; simp
  | cons r t ih =>
    intro st
    rw [List.foldl_cons, ih, delete_rec, List.filter_filter]
    apply List.filter_congr
    intro x hx
    simp only [List.all_cons]
    rw [Bool.and_comm]

/-- C6: the expiry sweep deletes exactly the records with expires_at before
now — independent of the active flag — returns their count, and leaves every
other record unchanged.  The hypothesis states the primary-key invariant of the
table: row ids are pairwise distinct. -/
theorem sweep_expired_exact (s : TokenStore) (now : Int)
    (hids : (s.map TokenRec.id).Nodup) :
    (cleanup_expired_tokens s now).1 =
      (s.filter (fun r => decide (r.expires_at < now))).length ∧
    (cleanup_expired_tokens s now).2 =
      s.filter (fun r => !decide (r.expires_at < now)) := by
  have hinj := List.inj_on_of_nodup_map hids
  constructor
  · rw [cleanup_expired_tokens]
    rw [cleanup_foldl_count]
    simp
  · rw [cleanup_expired_tokens]
    rw [cleanup_foldl_store, foldl_delete_eq_filter]
    apply List.filter_congr
    intro x hx
    by_cases hexp : x.expires_at < now
    · have hm : x ∈ s.filter (fun r => decide (r.expires_at < now)) := by
        rw [List.mem_filter]
        exact ⟨hx, by simpa⟩
      have hfalse : (s.filter (fun r => decide (r.expires_at < now))).all
          (fun r => x.id != r.id) = false := by
        cases hall : (s.filter (fun r => decide (r.expires_at < now))).all
            (fun r => x.id != r.id)
        · rfl
        · have := List.all_eq_true.mp hall x hm
          simp at this
      rw [hfalse]
      simp [hexp]
    · have htrue : (s.filter (fun r => decide (r.expires_at < now))).all
          (fun r => x.id != r.id) = true := by
        rw [List.all_eq_true]
        intro r hr
        rw [List.mem_filter] at hr
        have hrexp : r.expires_at < now := by simpa using hr.2
        simp only [bne_iff_ne, ne_eq]
        intro hid
        have : x = r := hinj hx hr.1 hid
        subst this
        exact hexp hrexp
      rw [htrue]
      simp [hexp]

/-- C6, witness: a store with an expired active record, an expired inactive
record and an unexpired record: the sweep deletes the two expired rows, counts
them, and keeps the unexpired row. -/
theorem sweep_expired_exact_witness :
    ((([{ id := 1, token := "a", user_id := 1, expires_at := -3, is_active := true },
        { id := 2, token := "b", user_id := 1, expires_at := -1, is_active := false },
        { id := 3, token := "c", user_id := 2, expires_at := 9, is_active := true }] :
        TokenStore).map TokenRec.id).Nodup) ∧
    (cleanup_expired_tokens
      [{ id := 1, token := "a", user_id := 1, expires_at := -3, is_active := true },
       { id := 2, token := "b", user_id := 1, expires_at := -1, is_active := false },
       { id := 3, token := "c", user_id := 2, expires_at := 9, is_active := true }] 0).1 = 2 ∧
    (cleanup_expired_tokens
      [{ id := 1, token := "a", user_id := 1, expires_at := -3, is_active := true },
       { id := 2, token := "b", user_id := 1, expires_at := -1, is_active := false },
       { id := 3, token := "c", user_id := 2, expires_at := 9, is_active := true }] 0).2 =
      [{ id := 3, token := "c", user_id := 2, expires_at := 9, is_active := true }] := by
  refine ⟨by decide, ?_, ?_⟩
  · rw [(sweep_expired_exact _ 0 (by decide)).1]
    decide
  · rw [(sweep_expired_exact _ 0 (by decide)).2]
    decide

/-- C8: round-trip — validating, at the issue time and under the same
configured key and algorithm, the access credential issued for subject id
`uid` succeeds and recovers `uid` unchanged (the subject is carried as
str(uid) in the `sub` claim and parsed back with int()). -/
theorem access_token_round_trip (cfg : Settings) (uid : Nat) (now : Int) :
    token_bearer_validate cfg (create_access_token cfg (pyStr uid) now) now =
      .ok uid := by
  have hexp : ¬ ((now + 60 * (cfg.ACCESS_TOKEN_EXPIRE_MINUTES : Int)) < now) := by
    omega
  rw [token_bearer_validate, is_jwt_token_on_encoded, create_access_token,
    decode_token, jose_jwt_decode]
  simp [hexp, pyInt_pyStr]

/-- C9: for a registered principal and a password that does not verify against
the stored digest, authentication fails with the Unauthorized error, returns no
tokens, and leaves the refresh store unchanged. -/
theorem authenticate_wrong_password_rejected (cfg : Settings)
    (verify : String → String → Bool) (users : List User) (s : TokenStore)
    (now : Int) (email password fresh : String) (fid : Nat) (u : User)
    (hu : get_by_email users email = some u)
    (hv : verify password u.hashed_password = false) :
    authenticate_user cfg verify users s now email password fresh fid =
      (.error (.unauthorized "Incorrect email or password"), s) := by
  rw [authenticate_user, hu]
  simp [hv]

/-- C9, witness: with the digest check modelled as string equality, a wrong
password is rejected and the store (here empty) is unchanged. -/
theorem authenticate_wrong_password_rejected_witness :
    authenticate_user cfgD (fun p h => p == h) [userD] [] 0 "e" "wrong" "f" 9 =
      (.error (.unauthorized "Incorrect email or password"), []) :=
  authenticate_wrong_password_rejected cfgD (fun p h => p == h) [userD] [] 0
    "e" "wrong" "f" 9 userD (by decide) (by decide)

/-- C4: when no active, unexpired record with the presented value exists in the
store — it is absent, or revoked (inactive), or past its expiry — rotation
fails with the single Unauthorized error kind (the specification's
AlreadyRotatedOrRevoked) and leaves the store unchanged: no replacement record
is inserted and no access credential is issued. -/
theorem rotate_invalid_rejected (cfg : Settings) (users : List User)
    (s : TokenStore) (now : Int) (rt fresh : String) (fid : Nat)
    (h : ∀ r ∈ s, r.token = rt → r.is_active = false ∨ r.expires_at < now) :
    errIsUnauthorized (refresh_access_token cfg users s now rt fresh fid).1 = true ∧
    (refresh_access_token cfg users s now rt fresh fid).2 = s := by
  cases hfind : get_by_token s rt with
  | none =>
    rw [refresh_access_token, hfind]
    exact ⟨rfl, rfl⟩
  | some db =>
    have hmem := List.mem_of_find?_eq_some hfind
    have hp := List.find?_some hfind
    simp only [Bool.and_eq_true, beq_iff_eq] at hp
    have hexp : db.expires_at < now := by
      rcases h db hmem hp.1 with hi | he
      · rw [hp.2] at hi; cases hi
      · exact he
    rw [refresh_access_token, hfind]
    simp only [hp.2, Bool.not_true, Bool.false_eq_true, if_false,
      decide_eq_true hexp, if_true]
    refine ⟨?_, ?_⟩ <;> trivial

/-- C4, witness: rotating an expired (though active) token fails with the
Unauthorized error and the store is unchanged. -/
theorem rotate_invalid_rejected_witness :
    errIsUnauthorized (refresh_access_token cfgD [userD]
      [{ id := 1, token := "t0", user_id := 1, expires_at := -1,
         is_active := true }] 0 "t0" "f" 9).1 = true ∧
    (refresh_access_token cfgD [userD]
      [{ id := 1, token := "t0", user_id := 1, expires_at := -1,
         is_active := true }] 0 "t0" "f" 9).2 =
      [{ id := 1, token := "t0", user_id := 1, expires_at := -1,
         is_active := true }] :=
  rotate_invalid_rejected cfgD [userD]
    [{ id := 1, token := "t0", user_id := 1, expires_at := -1,
       is_active := true }] 0 "t0" "f" 9
    (by intro r hr htok; right; rw [List.mem_singleton.mp hr]; decide)

/-- C10: logout is not idempotent — when the store holds no active record with
the presented value, logout raises the Unauthorized error (rather than
returning success); and when an active record exists, the first logout
succeeds while a second logout with the same value fails. -/
theorem logout_not_idempotent (s : TokenStore) (rt : String) :
    ((∀ r ∈ s, r.token = rt → r.is_active = false) →
      logout s rt = (.error (.unauthorized "Invalid refresh token"), s)) ∧
    (∀ r ∈ s, r.token = rt → r.is_active = true →
      (logout s rt).1 = .ok "Successfully logged out" ∧
      (logout (logout s rt).2 rt).1 =
        .error (.unauthorized "Invalid refresh token")) := by
  constructor
  · intro hnone
    have hfind : get_by_token s rt = none := by
      rw [get_by_token, List.find?_eq_none]
      intro x hx
      by_cases ht : x.token = rt
      · simp [hnone x hx ht]
      · simp [ht]
    rw [logout, revoke_token, hfind]
  · intro r hr htok hact
    have hsome : (get_by_token s rt).isSome = true := by
      rw [get_by_token, List.find?_isSome]
      exact ⟨r, hr, by simp [htok, hact]⟩
    obtain ⟨db, hfind⟩ := Option.isSome_iff_exists.mp hsome
    have hfirst : logout s rt = (.ok "Successfully logged out", mark_inactive s rt) := by
      rw [logout, revoke_token, hfind]
    refine ⟨by rw [hfirst], ?_⟩
    rw [hfirst]
    rw [logout, revoke_token, get_by_token_mark_inactive]

/-- C10, witness: on a store with one active record, the first logout succeeds
and the second with the same token value fails with the Unauthorized error. -/
theorem logout_not_idempotent_witness :
    (logout [tokD] "t0").1 = .ok "Successfully logged out" ∧
    (logout (logout [tokD] "t0").2 "t0").1 =
      .error (.unauthorized "Invalid refresh token") :=
  (logout_not_idempotent [tokD] "t0").2 tokD (List.mem_singleton.mpr rfl) rfl rfl

/-- C3: rotation is single-use — after a rotate call on value rt succeeds
(producing the replacement value fresh, distinct from rt as a freshly drawn
random token is), a second, sequential rotate call presenting rt fails with the
Unauthorized error kind (the specification's AlreadyRotatedOrRevoked; the
consumed record is inactive, so the active-filtered lookup reports it absent)
and leaves the store unchanged. -/
theorem rotate_single_use (cfg : Settings) (users : List User) (s : TokenStore)
    (now : Int) (rt fresh : String) (fid : Nat) (res : TokenPair)
    (s1 : TokenStore) (hfresh : fresh ≠ rt)
    (hok : refresh_access_token cfg users s now rt fresh fid = (.ok res, s1)) :
    ∀ fresh2 : String, ∀ fid2 : Nat,
      refresh_access_token cfg users s1 now rt fresh2 fid2 =
        (.error (.unauthorized "Refresh token not found"), s1) := by
  intro fresh2 fid2
  rw [refresh_access_token_phases] at hok
  cases hread : rotate_read_phase users s now rt with
  | error e =>
    rw [hread] at hok
    simp at hok
  | ok du =>
    obtain ⟨db, user⟩ := du
    rw [hread] at hok
    simp only [rotate_write_phase] at hok
    have hs := congrArg Prod.snd hok
    simp only at hs
    have hnone : get_by_token s1 rt = none := by
      rw [← hs, get_by_token_create_other _ _ _ _ _ _ hfresh,
        get_by_token_mark_inactive]
    rw [refresh_access_token, hnone]

/-- C3, witness: a concrete successful rotation on a one-record store, followed
by a second rotation with the same value, which fails and changes nothing. -/
theorem rotate_single_use_witness :
    refresh_access_token cfgD [userD]
      [{ id := 1, token := "t0", user_id := 1, expires_at := 100, is_active := false },
       { id := 2, token := "f1", user_id := 1, expires_at := 604800, is_active := true }]
      0 "t0" "f2" 3 =
    (.error (.unauthorized "Refresh token not found"),
     [{ id := 1, token := "t0", user_id := 1, expires_at := 100, is_active := false },
      { id := 2, token := "f1", user_id := 1, expires_at := 604800, is_active := true }]) :=
  rotate_single_use cfgD [userD] [tokD] 0 "t0" "f1" 2
    { access_token := { payload := { sub := some "1", exp := 1800 },
                        key := "k", alg := "HS256" },
      refresh_token := "f1", token_type := "bearer", auth_type := "hybrid" }
    [{ id := 1, token := "t0", user_id := 1, expires_at := 100, is_active := false },
     { id := 2, token := "f1", user_id := 1, expires_at := 604800, is_active := true }]
    (by decide) (by rfl) "f2" 3

/-- C1: the claim that of two concurrent rotate calls on the same token exactly
one succeeds fails on the code: revoke_token is a read-then-write pair, not a
conditional update, so under the interleaving in which both calls perform their
reads before either write commits, both calls succeed and both insert a
replacement record.  Under the same schedule the spec-prescribed conditional
revoke (deciding on the row state at write time) makes caller A succeed and
caller B fail with the reuse error, confirming that the conditional update is
what the guarantee requires. -/
theorem concurrent_rotate_both_succeed :
    ((rotate_race cfgD [userD] [tokD] 0 "t0" "fA" "fB" 2 3).1.isOk = true) ∧
    ((rotate_race cfgD [userD] [tokD] 0 "t0" "fA" "fB" 2 3).2.1.isOk = true) ∧
    ((rotate_race cfgD [userD] [tokD] 0 "t0" "fA" "fB" 2 3).2.2 =
      [{ id := 1, token := "t0", user_id := 1, expires_at := 100, is_active := false },
       { id := 2, token := "fA", user_id := 1, expires_at := 604800, is_active := true },
       { id := 3, token := "fB", user_id := 1, expires_at := 604800, is_active := true }]) ∧
    ((rotate_race_cas cfgD [userD] [tokD] 0 "t0" "fA" "fB" 2 3).1.isOk = true) ∧
    ((rotate_race_cas cfgD [userD] [tokD] 0 "t0" "fA" "fB" 2 3).2.1 =
      .error (.unauthorized "Refresh token not found")) := by
  refine ⟨by decide, by decide, by rfl, by decide, by rfl⟩

end Praetor
